import Mathlib

/-!
Verification of `generate_catalog.py` (SeaTable static catalog generator).

The Python source is shallowly embedded below: pure helpers
(`get_image_filename`, `find_image_column`, `generate_html`, `load_config`)
become Lean functions over `Nat`-byte lists and `String`s; the effectful
parts (`download_image`, `main`) become explicit state-passing functions over
a file-set and a network-response environment, recording the requests made,
the lines printed, the exit code and the HTML artifact written.
-/

namespace Catalog

/-! ## Bytes, hex, UTF-8 -/

/-- 2^32, the modulus for 32-bit arithmetic. -/
def M32 : Nat := 4294967296

/-- Lowercase hex digit for a nibble, as produced by Python's `hexdigest`. -/
def hexChar (n : Nat) : Char := Char.ofNat (if n < 10 then 48 + n else 87 + n)

/-- Two lowercase hex digits of one byte. -/
def byteHex (b : Nat) : List Char := [hexChar (b / 16 % 16), hexChar (b % 16)]

/-- UTF-8 encoding of one character (Python `str.encode()` per code point). -/
def utf8EncodeChar (c : Char) : List Nat :=
  let n := c.toNat
  if n < 128 then [n]
  else if n < 2048 then [192 + n / 64, 128 + n % 64]
  else if n < 65536 then [224 + n / 4096, 128 + n / 64 % 64, 128 + n % 64]
  else [240 + n / 262144, 128 + n / 4096 % 64, 128 + n / 64 % 64, 128 + n % 64]

/-- UTF-8 encoding of a string, as Python `path.encode()`. -/
def strBytes (s : String) : List Nat := (s.data.map utf8EncodeChar).flatten

/-! ## MD5 (hashlib.md5), executable -/

/-- The 64 MD5 sine-derived round constants. -/
def md5K : List Nat :=
  [3614090360, 3905402710, 606105819, 3250441966, 4118548399, 1200080426,
   2821735955, 4249261313, 1770035416, 2336552879, 4294925233, 2304563134,
   1804603682, 4254626195, 2792965006, 1236535329, 4129170786, 3225465664,
   643717713, 3921069994, 3593408605, 38016083, 3634488961, 3889429448,
   568446438, 3275163606, 4107603335, 1163531501, 2850285829, 4243563512,
   1735328473, 2368359562, 4294588738, 2272392833, 1839030562, 4259657740,
   2763975236, 1272893353, 4139469664, 3200236656, 681279174, 3936430074,
   3572445317, 76029189, 3654602809, 3873151461, 530742520, 3299628645,
   4096336452, 1126891415, 2878612391, 4237533241, 1700485571, 2399980690,
   4293915773, 2240044497, 1873313359, 4264355552, 2734768916, 1309151649,
   4149444226, 3174756917, 718787259, 3951481745]

/-- The 64 MD5 per-round left-rotation amounts. -/
def md5S : List Nat :=
  [7, 12, 17, 22, 7, 12, 17, 22, 7, 12, 17, 22, 7, 12, 17, 22,
   5, 9, 14, 20, 5, 9, 14, 20, 5, 9, 14, 20, 5, 9, 14, 20,
   4, 11, 16, 23, 4, 11, 16, 23, 4, 11, 16, 23, 4, 11, 16, 23,
   6, 10, 15, 21, 6, 10, 15, 21, 6, 10, 15, 21, 6, 10, 15, 21]

/-- 32-bit left rotation on `Nat` (inputs reduced mod 2^32). -/
def rotl32 (x n : Nat) : Nat :=
  ((x % M32) * 2 ^ n) % M32 + (x % M32) / 2 ^ (32 - n)

/-- Little-endian 4-byte decomposition of a 32-bit word. -/
def toLE4 (x : Nat) : List Nat := [x % 256, x / 256 % 256, x / 65536 % 256, x / 16777216 % 256]

/-- Little-endian 8-byte decomposition (for the MD5 length trailer). -/
def le8 (x : Nat) : List Nat := (List.range 8).map (fun i => x / 256 ^ i % 256)

/-- Read a 32-bit word from 4 little-endian bytes. -/
def fromLE4 : List Nat → Nat
  | [a, b, c, d] => a + 256 * b + 65536 * c + 16777216 * d
  | _ => 0

/-- The MD5 state: four 32-bit words. -/
structure MD5State where
  a : Nat
  b : Nat
  c : Nat
  d : Nat
deriving Repr, DecidableEq

/-- MD5 initial state. -/
def md5Init : MD5State := ⟨1732584193, 4023233417, 2562383102, 271733878⟩

/-- One of the 64 MD5 rounds over the 16 message words `Ms`. -/
def md5Step (Ms : List Nat) (st : MD5State) (i : Nat) : MD5State :=
  let f :=
    if i < 16 then Nat.lor (Nat.land st.b st.c) (Nat.land (M32 - 1 - st.b) st.d)
    else if i < 32 then Nat.lor (Nat.land st.d st.b) (Nat.land (M32 - 1 - st.d) st.c)
    else if i < 48 then Nat.xor st.b (Nat.xor st.c st.d)
    else Nat.xor st.c (Nat.lor st.b (M32 - 1 - st.d))
  let g :=
    if i < 16 then i
    else if i < 32 then (5 * i + 1) % 16
    else if i < 48 then (3 * i + 5) % 16
    else (7 * i) % 16
  let tmp := (f + st.a + md5K.getD i 0 + Ms.getD g 0) % M32
  ⟨st.d, (st.b + rotl32 tmp (md5S.getD i 0)) % M32, st.b, st.c⟩

/-- Process one 64-byte chunk. -/
def md5Chunk (st : MD5State) (chunk : List Nat) : MD5State :=
  let Ms := (List.range 16).map (fun i => fromLE4 ((chunk.drop (4 * i)).take 4))
  let r := (List.range 64).foldl (md5Step Ms) st
  ⟨(st.a + r.a) % M32, (st.b + r.b) % M32, (st.c + r.c) % M32, (st.d + r.d) % M32⟩

/-- MD5 padding: `0x80`, zeros to 56 mod 64, then the bit length in 8 LE bytes. -/
def md5Padding (len : Nat) : List Nat :=
  128 :: List.replicate ((120 - (len + 1) % 64) % 64) 0 ++ le8 (len * 8 % 2 ^ 64)

/-- Fold `md5Chunk` over successive 64-byte chunks; `fuel` bounds the number of
chunks (structural recursion so the kernel can evaluate it). -/
def md5FoldAux : Nat → MD5State → List Nat → MD5State
  | _, st, [] => st
  | 0, st, _ => st
  | fuel + 1, st, l => md5FoldAux fuel (md5Chunk st (l.take 64)) (l.drop 64)

/-- The 16-byte MD5 digest of a byte list. -/
def md5Bytes (msg : List Nat) : List Nat :=
  let padded := msg ++ md5Padding msg.length
  let st := md5FoldAux padded.length md5Init padded
  toLE4 st.a ++ toLE4 st.b ++ toLE4 st.c ++ toLE4 st.d

/-- The 32-character lowercase hex digest (`hashlib.md5(...).hexdigest()`). -/
def md5hex (msg : List Nat) : String := ⟨((md5Bytes msg).map byteHex).flatten⟩

/-! ## `urllib.parse.urlparse(...).path` -/

/-- Characters allowed in a URL scheme (`scheme_chars`). -/
def isSchemeChar (c : Char) : Bool :=
  c.isAlpha || c.isDigit || c == '+' || c == '-' || c == '.'

/-- Index of the first occurrence of `c` at or after position `start`. -/
def findFrom (cs : List Char) (c : Char) (start : Nat) : Option Nat :=
  ((cs.drop start).findIdx? (· == c)).map (· + start)

/-- Index of the last occurrence of `c`. -/
def rfindIdx (cs : List Char) (c : Char) : Option Nat :=
  (cs.reverse.findIdx? (· == c)).map (fun j => cs.length - 1 - j)

/-- Split a scheme off the URL if the part before the first `:` is made of
scheme characters (CPython `urlsplit`). Returns (lower-cased scheme, rest). -/
def splitScheme (cs : List Char) : List Char × List Char :=
  match cs.findIdx? (· == ':') with
  | some i =>
      if 0 < i ∧ (cs.take i).all isSchemeChar then
        ((cs.take i).map Char.toLower, cs.drop (i + 1))
      else ([], cs)
  | none => ([], cs)

/-- Drop `//netloc` when present (`_splitnetloc`): the netloc runs to the first
`/`, `?` or `#`; the delimiter stays with the remainder. -/
def dropNetloc (cs : List Char) : List Char :=
  match cs with
  | '/' :: '/' :: rest =>
      rest.dropWhile (fun c => !(c == '/' || c == '?' || c == '#'))
  | _ => cs

/-- Remove the `;params` suffix of the last path segment (`_splitparams`). -/
def splitParams (cs : List Char) : List Char :=
  if cs.contains '/' then
    match rfindIdx cs '/' with
    | some r =>
        match findFrom cs ';' r with
        | some i => cs.take i
        | none => cs
    | none => cs
  else
    match cs.findIdx? (· == ';') with
    | some i => cs.take i
    | none => cs

/-- Schemes for which `urlparse` splits `;params` (`uses_params`). -/
def usesParams : List (List Char) :=
  ["", "ftp", "hdl", "prospero", "http", "imap", "https", "shttp", "rtsp",
   "rtspu", "sip", "sips", "mms", "sftp", "tel"].map String.data

/-- The `.path` of `urllib.parse.urlparse(url)`: strip leading control/space
characters, remove tab/CR/LF, split off scheme, netloc, fragment, query, and
(for param-using schemes) the last segment's `;params`. -/
def urlparse_path (url : String) : String :=
  let cs := url.data.dropWhile (fun c => decide (c.toNat ≤ 32))
  let cs := cs.filter (fun c => !(c == '\t' || c == '\r' || c == '\n'))
  let (scheme, cs) := splitScheme cs
  let cs := dropNetloc cs
  let cs := cs.takeWhile (· != '#')
  let cs := cs.takeWhile (· != '?')
  if usesParams.contains scheme ∧ cs.contains ';' then ⟨splitParams cs⟩ else ⟨cs⟩

/-! ## `urllib.parse.unquote` and `quote` -/

/-- Value of a hex digit character, if it is one. -/
def hexDigitVal (c : Char) : Option Nat :=
  if '0' ≤ c ∧ c ≤ '9' then some (c.toNat - 48)
  else if 'a' ≤ c ∧ c ≤ 'f' then some (c.toNat - 87)
  else if 'A' ≤ c ∧ c ≤ 'F' then some (c.toNat - 55)
  else none

/-- U+FFFD, the decoding replacement character (`errors='replace'`). -/
def replChar : Char := Char.ofNat 65533

/-- Value of a UTF-8 continuation byte, if it is one. -/
def contVal (b : Nat) : Option Nat :=
  if 128 ≤ b ∧ b < 192 then some (b - 128) else none

/-- Decode UTF-8 bytes to characters, replacing invalid sequences with U+FFFD;
`fuel` bounds the recursion so the kernel can evaluate it. -/
def utf8Decode : Nat → List Nat → List Char
  | _, [] => []
  | 0, _ => []
  | fuel + 1, b :: bs =>
      if b < 128 then Char.ofNat b :: utf8Decode fuel bs
      else if b < 194 then replChar :: utf8Decode fuel bs
      else if b < 224 then
        match bs with
        | b2 :: bs2 =>
            match contVal b2 with
            | some v2 => Char.ofNat ((b - 192) * 64 + v2) :: utf8Decode fuel bs2
            | none => replChar :: utf8Decode fuel bs
        | [] => [replChar]
      else if b < 240 then
        match bs with
        | b2 :: b3 :: bs3 =>
            match contVal b2, contVal b3 with
            | some v2, some v3 =>
                let n := (b - 224) * 4096 + v2 * 64 + v3
                if 2048 ≤ n ∧ ¬(55296 ≤ n ∧ n ≤ 57343) then
                  Char.ofNat n :: utf8Decode fuel bs3
                else replChar :: utf8Decode fuel bs
            | _, _ => replChar :: utf8Decode fuel bs
        | _ => [replChar]
      else if b < 245 then
        match bs with
        | b2 :: b3 :: b4 :: bs4 =>
            match contVal b2, contVal b3, contVal b4 with
            | some v2, some v3, some v4 =>
                let n := (b - 240) * 262144 + v2 * 4096 + v3 * 64 + v4
                if 65536 ≤ n ∧ n ≤ 1114111 then
                  Char.ofNat n :: utf8Decode fuel bs4
                else replChar :: utf8Decode fuel bs
            | _, _, _ => replChar :: utf8Decode fuel bs
        | _ => [replChar]
      else replChar :: utf8Decode fuel bs

/-- Collect a maximal run of `%hh` escapes into bytes, returning the remainder. -/
def pctRun : List Char → List Nat × List Char
  | '%' :: h1 :: h2 :: rest =>
      match hexDigitVal h1, hexDigitVal h2 with
      | some a, some b =>
          let (bs, r) := pctRun rest
          ((16 * a + b) :: bs, r)
      | _, _ => ([], '%' :: h1 :: h2 :: rest)
  | cs => ([], cs)

/-- `urllib.parse.unquote` body: literal characters pass through; maximal runs
of `%hh` escapes are decoded as UTF-8 with replacement. -/
def unquoteAux : Nat → List Char → List Char
  | _, [] => []
  | 0, _ => []
  | fuel + 1, '%' :: cs =>
      match pctRun ('%' :: cs) with
      | ([], _) => '%' :: unquoteAux fuel cs
      | (bs, r) => utf8Decode bs.length bs ++ unquoteAux fuel r
  | fuel + 1, c :: cs => c :: unquoteAux fuel cs

/-- `urllib.parse.unquote` (UTF-8, `errors='replace'`). -/
def unquote (s : String) : String := ⟨unquoteAux s.data.length s.data⟩

/-- Characters never percent-encoded by `quote` (`_ALWAYS_SAFE`). -/
def isAlwaysSafe (c : Char) : Bool :=
  c.isAlpha || c.isDigit || c == '_' || c == '.' || c == '-' || c == '~'

/-- Uppercase hex digit for a nibble (as `quote` produces). -/
def hexCharUpper (n : Nat) : Char := Char.ofNat (if n < 10 then 48 + n else 55 + n)

/-- `urllib.parse.quote` with the default `safe='/'`: UTF-8 encode, keep safe
bytes, percent-encode the rest with uppercase hex. -/
def pyQuote (s : String) : String :=
  ⟨(strBytes s).flatMap (fun b =>
    if (b < 128 ∧ (isAlwaysSafe (Char.ofNat b) ∨ Char.ofNat b == '/')) then [Char.ofNat b]
    else ['%', hexCharUpper (b / 16), hexCharUpper (b % 16)])⟩

/-! ## `pathlib.PurePosixPath` name and suffix -/

/-- The `pathlib` components of a POSIX path string: split on `/`, dropping
empty and `.` components. -/
def pathComponents (cs : List Char) : List (List Char) :=
  (List.splitOnP (· == '/') cs).filter (fun c => c != [] && c != ['.'])

/-- `PurePosixPath(p).name` as a character list. -/
def pathNameCs (cs : List Char) : List Char :=
  (pathComponents cs).getLastD []

/-- `PurePosixPath(p).name`. -/
def pathName (p : String) : String := ⟨pathNameCs p.data⟩

/-- `.suffix` of a path whose string is `p`: the part of the name from its last
dot, provided that dot is neither the first nor the last character. -/
def pathSuffix (p : String) : String :=
  let name := pathNameCs p.data
  match rfindIdx name '.' with
  | some i => if 0 < i ∧ i < name.length - 1 then ⟨name.drop i⟩ else ""
  | none => ""

/-! ## `get_image_filename` -/

/-- `get_image_filename(image_url)`: the first 12 hex characters of the MD5 of
the URL-decoded URL path, then the original filename's extension. -/
def get_image_filename (image_url : String) : String :=
  let path := unquote (urlparse_path image_url)
  let original_filename := pathName path
  let extension := pathSuffix original_filename
  let path_hash : String := ⟨(md5hex (strBytes path)).data.take 12⟩
  path_hash ++ extension

/-! ## Data model: rows, cells, columns, config -/

/-- A cell value of a row: a string cell or an image-attachment list. -/
inductive CellValue where
  | str (s : String)
  | imageList (urls : List String)
deriving Repr, DecidableEq

/-- Python truthiness of a cell value (`if x:`). -/
def CellValue.py_truthy : CellValue → Bool
  | .str s => s != ""
  | .imageList l => l != []

/-- A single-quote character, built by code point to keep it out of literals. -/
def sq : String := ⟨[Char.ofNat 39]⟩

/-- Python `str()` of a cell value as used in f-strings (a list of strings
renders as its `repr`). -/
def CellValue.pyStr : CellValue → String
  | .str s => s
  | .imageList l => "[" ++ String.intercalate ", " (l.map (fun u => sq ++ u ++ sq)) ++ "]"

/-- A row: a finite mapping from opaque column key to cell value. -/
abbrev Row := List (String × CellValue)

/-- `row.get(k)`: the value at key `k`, if present. -/
def rowGet (r : Row) (k : String) : Option CellValue :=
  (r.find? (fun p => p.1 == k)).map Prod.snd

/-- `row.get(k, dflt)`. -/
def rowGetD (r : Row) (k : String) (dflt : CellValue) : CellValue :=
  (rowGet r k).getD dflt

/-- A column descriptor from the metadata: a string-valued record. -/
abbrev Column := List (String × String)

/-- `col.get(k)` on a column descriptor. -/
def colGet (c : Column) (k : String) : Option String :=
  (c.find? (fun p => p.1 == k)).map Prod.snd

/-- Python `x or y` on two `.get` results (`None` and `""` are falsy). -/
def pyOr (x y : Option String) : Option String :=
  match x with
  | some s => if s != "" then some s else y
  | none => y

/-! ## `find_image_column` -/

/-- `find_image_column(columns)`: the key of the first column whose key is
`"Jcpv"`; else, for the first column of type `"image"`, its key or (when the
key is falsy) its name; else nothing. -/
def find_image_column (columns : List Column) : Option String :=
  match columns.find? (fun col => colGet col "key" == some "Jcpv") with
  | some col => colGet col "key"
  | none =>
      match columns.find? (fun col => colGet col "type" == some "image") with
      | some col => pyOr (colGet col "key") (colGet col "name")
      | none => none

/-! ## `load_config` -/

/-- A JSON value in a parsed config object. -/
inductive JVal where
  | str (s : String)
  | bool (b : Bool)
deriving Repr, DecidableEq

/-- Python truthiness of a config value. -/
def JVal.py_truthy : JVal → Bool
  | .str s => s != ""
  | .bool b => b

/-- A parsed JSON config object. -/
abbrev ConfigDict := List (String × JVal)

/-- `config.get(k)`. -/
def cfgGet (c : ConfigDict) (k : String) : Option JVal :=
  (c.find? (fun p => p.1 == k)).map Prod.snd

/-- `k in config`. -/
def cfgHas (c : ConfigDict) (k : String) : Bool :=
  c.any (fun p => p.1 == k)

/-- The required config fields, in source order. -/
def requiredFields : List String :=
  ["view_name", "output_file", "header_logo", "header_title", "page_title"]

/-- `load_config` after JSON parsing succeeded: default
`include_purchase_button` to `False`, then fail (printing
`Error: Missing required config fields: ...` and exiting 1) when any required
field is absent, else return the config. -/
def load_config (config : ConfigDict) : Except (String × Nat) ConfigDict :=
  let config :=
    if cfgHas config "include_purchase_button" then config
    else config ++ [("include_purchase_button", JVal.bool false)]
  let missing := requiredFields.filter (fun f => !cfgHas config f)
  if missing != [] then
    .error ("Error: Missing required config fields: " ++ String.intercalate ", " missing, 1)
  else .ok config

/-- The fixed page template above the card grid (source lines 178-328). -/
def htmlHeader (page_title header_logo header_title : String) : String :=
  "<!DOCTYPE html>\n"
  ++ "<html lang=\"en\">\n"
  ++ "<head>\n"
  ++ "    <meta charset=\"UTF-8\">\n"
  ++ "    <meta name=\"viewport\" content=\"width=device-width, initial-scale=1.0\">\n"
  ++ "    <title>" ++ page_title ++ "</title>\n"
  ++ "    <style>\n"
  ++ "        * \x7b\n"
  ++ "            margin: 0;\n"
  ++ "            padding: 0;\n"
  ++ "            box-sizing: border-box;\n"
  ++ "        \x7d\n"
  ++ "        \n"
  ++ "        body \x7b\n"
  ++ "            font-family: -apple-system, BlinkMacSystemFont, " ++ sq ++ "Segoe UI" ++ sq ++ ", sans-serif;\n"
  ++ "            background: #fff;\n"
  ++ "            padding: 20px;\n"
  ++ "        \x7d\n"
  ++ "        \n"
  ++ "        .container \x7b\n"
  ++ "            max-width: 1400px;\n"
  ++ "            margin: 0 auto;\n"
  ++ "        \x7d\n"
  ++ "        \n"
  ++ "        .header \x7b\n"
  ++ "            display: flex;\n"
  ++ "            flex-direction: column;\n"
  ++ "            align-items: center;\n"
  ++ "            gap: 15px;\n"
  ++ "            margin-bottom: 40px;\n"
  ++ "        \x7d\n"
  ++ "        \n"
  ++ "        .header img \x7b\n"
  ++ "            max-width: 100%;\n"
  ++ "            height: auto;\n"
  ++ "        \x7d\n"
  ++ "        \n"
  ++ "        .header .logo \x7b\n"
  ++ "            max-width: 400px;\n"
  ++ "        \x7d\n"
  ++ "        \n"
  ++ "        .header .title \x7b\n"
  ++ "            max-width: 600px;\n"
  ++ "        \x7d\n"
  ++ "        \n"
  ++ "        h1 \x7b\n"
  ++ "            font-size: 2rem;\n"
  ++ "            margin-bottom: 30px;\n"
  ++ "            font-weight: 300;\n"
  ++ "            text-align: center;\n"
  ++ "        \x7d\n"
  ++ "        \n"
  ++ "        .grid \x7b\n"
  ++ "            display: grid;\n"
  ++ "            grid-template-columns: repeat(auto-fill, minmax(300px, 1fr));\n"
  ++ "            gap: 30px;\n"
  ++ "        \x7d\n"
  ++ "        \n"
  ++ "        .artwork-card \x7b\n"
  ++ "            background: #f9f9f9;\n"
  ++ "            border-radius: 2px;\n"
  ++ "            overflow: hidden;\n"
  ++ "            box-shadow: 0 1px 3px rgba(0,0,0,0.1);\n"
  ++ "            transition: box-shadow 0.2s;\n"
  ++ "        \x7d\n"
  ++ "        \n"
  ++ "        .artwork-card:hover \x7b\n"
  ++ "            box-shadow: 0 4px 12px rgba(0,0,0,0.15);\n"
  ++ "        \x7d\n"
  ++ "        \n"
  ++ "        .artwork-image \x7b\n"
  ++ "            width: 100%;\n"
  ++ "            height: 300px;\n"
  ++ "            background: #f9f9f9;\n"
  ++ "            display: flex;\n"
  ++ "            align-items: center;\n"
  ++ "            justify-content: center;\n"
  ++ "            padding: 20px;\n"
  ++ "        \x7d\n"
  ++ "        \n"
  ++ "        .artwork-image img \x7b\n"
  ++ "            max-width: 100%;\n"
  ++ "            max-height: 300px;\n"
  ++ "            width: auto;\n"
  ++ "            height: auto;\n"
  ++ "            object-fit: contain;\n"
  ++ "            display: block;\n"
  ++ "        \x7d\n"
  ++ "        \n"
  ++ "        .artwork-info \x7b\n"
  ++ "            padding: 20px;\n"
  ++ "        \x7d\n"
  ++ "        \n"
  ++ "        .artwork-title \x7b\n"
  ++ "            font-size: 1.1rem;\n"
  ++ "            font-weight: 600;\n"
  ++ "            margin-bottom: 8px;\n"
  ++ "            color: #222;\n"
  ++ "        \x7d\n"
  ++ "        \n"
  ++ "        .artwork-meta \x7b\n"
  ++ "            font-size: 0.9rem;\n"
  ++ "            color: #666;\n"
  ++ "            line-height: 1.6;\n"
  ++ "        \x7d\n"
  ++ "        \n"
  ++ "        .artwork-meta div \x7b\n"
  ++ "            margin-bottom: 4px;\n"
  ++ "        \x7d\n"
  ++ "        \n"
  ++ "        .inv-number \x7b\n"
  ++ "            font-family: monospace;\n"
  ++ "            color: #999;\n"
  ++ "            font-size: 0.85rem;\n"
  ++ "            margin-bottom: 8px;\n"
  ++ "        \x7d\n"
  ++ "        \n"
  ++ "        .price \x7b\n"
  ++ "            margin-top: 8px;\n"
  ++ "            font-weight: 600;\n"
  ++ "            color: #222;\n"
  ++ "        \x7d\n"
  ++ "        \n"
  ++ "        .inquire-btn \x7b\n"
  ++ "            display: block;\n"
  ++ "            width: 100%;\n"
  ++ "            margin-top: 15px;\n"
  ++ "            padding: 10px;\n"
  ++ "            background: #888;\n"
  ++ "            color: white;\n"
  ++ "            text-align: center;\n"
  ++ "            text-decoration: none;\n"
  ++ "            border-radius: 2px;\n"
  ++ "            font-size: 0.9rem;\n"
  ++ "            font-weight: 500;\n"
  ++ "            transition: background 0.2s;\n"
  ++ "        \x7d\n"
  ++ "        \n"
  ++ "        .inquire-btn:hover \x7b\n"
  ++ "            background: #666;\n"
  ++ "        \x7d\n"
  ++ "    </style>\n"
  ++ "</head>\n"
  ++ "<body>\n"
  ++ "    <div class=\"container\">\n"
  ++ "        <div class=\"header\">\n"
  ++ "            <img src=\"" ++ header_logo ++ "\" alt=\"John Woodruff\" class=\"logo\">\n"
  ++ "            <img src=\"" ++ header_title ++ "\" alt=\"Available Works\" class=\"title\">\n"
  ++ "        </div>\n"
  ++ "        <div class=\"grid\">\n"

/-- The display fields extracted from a row by fixed opaque keys
(source lines 341-351). -/
structure RowFields where
  inventory : CellValue
  title : CellValue
  series : CellValue
  year : CellValue
  edition : CellValue
  image_size : CellValue
  paper_size : CellValue
  frame_size : CellValue
  edition_desc : CellValue
  medium : CellValue
  price : CellValue
deriving Repr, DecidableEq

/-- Extract the display fields (`row.get(key, default)` per field). -/
def extractFields (row : Row) : RowFields where
  inventory := rowGetD row "0000" (.str "")
  title := rowGetD row "gScu" (.str "Untitled")
  series := rowGetD row "z350" (.str "")
  year := rowGetD row "4UG7" (.str "")
  edition := rowGetD row "rXGj" (.str "")
  image_size := rowGetD row "gWXH" (.str "")
  paper_size := rowGetD row "2Te2" (.str "")
  frame_size := rowGetD row "6Ci3" (.str "")
  edition_desc := rowGetD row "3y0u" (.str "")
  medium := rowGetD row "Xe9e" (.str "")
  price := rowGetD row "upE4" (.str "")

/-- The opening of a card (source lines 354-361). -/
def cardTop (image_filename title : String) : String :=
  "            <div class=\"artwork-card\">\n"
  ++ "                <div class=\"artwork-image\">\n"
  ++ "                    <img src=\"images/" ++ image_filename ++ "\" alt=\"" ++ title ++ "\">\n"
  ++ "                </div>\n"
  ++ "                <div class=\"artwork-info\">\n"
  ++ "                    <div class=\"artwork-title\">" ++ title ++ "</div>\n"
  ++ "                    <div class=\"artwork-meta\">\n"

/-- Card line for the inventory number, present only when truthy. -/
def invCard (v : CellValue) : String :=
  if v.py_truthy then
    "                        <div class=\"inv-number\">" ++ v.pyStr ++ "</div>\n"
  else ""

/-- Card line for the series, present only when truthy. -/
def seriesCard (v : CellValue) : String :=
  if v.py_truthy then
    "                        <div><strong>Series:</strong> " ++ v.pyStr ++ "</div>\n"
  else ""

/-- Card line for the year, present only when truthy. -/
def yearCard (v : CellValue) : String :=
  if v.py_truthy then
    "                        <div><strong>Year:</strong> " ++ v.pyStr ++ "</div>\n"
  else ""

/-- Card line for the edition, present only when truthy. -/
def editionCard (v : CellValue) : String :=
  if v.py_truthy then
    "                        <div><strong>Edition:</strong> " ++ v.pyStr ++ "</div>\n"
  else ""

/-- Card line for the image size, present only when truthy. -/
def imageSizeCard (v : CellValue) : String :=
  if v.py_truthy then
    "                        <div><strong>Image:</strong> " ++ v.pyStr ++ "\"</div>\n"
  else ""

/-- Card line for the paper size, present only when truthy. -/
def paperSizeCard (v : CellValue) : String :=
  if v.py_truthy then
    "                        <div><strong>Paper:</strong> " ++ v.pyStr ++ "\"</div>\n"
  else ""

/-- Card line for the frame size, present only when truthy. -/
def frameSizeCard (v : CellValue) : String :=
  if v.py_truthy then
    "                        <div><strong>Frame:</strong> " ++ v.pyStr ++ "\"</div>\n"
  else ""

/-- Card line for the edition description, present only when truthy. -/
def editionDescCard (v : CellValue) : String :=
  if v.py_truthy then
    "                        <div style=\"margin-top: 10px; font-size: 0.85rem; line-height: 1.5;\">"
      ++ v.pyStr ++ "</div>\n"
  else ""

/-- Card line for the medium, present only when truthy. -/
def mediumCard (v : CellValue) : String :=
  if v.py_truthy then
    "                        <div><strong>Medium:</strong> " ++ v.pyStr ++ "</div>\n"
  else ""

/-- Card line for the price, present only when truthy. -/
def priceCard (v : CellValue) : String :=
  if v.py_truthy then
    "                        <div class=\"price\">$" ++ v.pyStr ++ "</div>\n"
  else ""

/-- The fixed first lines of the inquiry email body. -/
def emailIntro : String := "I" ++ sq ++ "m interested in the following artwork:\n\n"

/-- The title line of the email body: always present. -/
def titleEmail (v : CellValue) : String := "Title: " ++ v.pyStr ++ "\n"

/-- Email line for the inventory number, present only when truthy. -/
def invEmail (v : CellValue) : String :=
  if v.py_truthy then "Inventory: " ++ v.pyStr ++ "\n" else ""

/-- Email line for the series, present only when truthy. -/
def seriesEmail (v : CellValue) : String :=
  if v.py_truthy then "Series: " ++ v.pyStr ++ "\n" else ""

/-- Email line for the year, present only when truthy. -/
def yearEmail (v : CellValue) : String :=
  if v.py_truthy then "Year: " ++ v.pyStr ++ "\n" else ""

/-- Email line for the edition, present only when truthy. -/
def editionEmail (v : CellValue) : String :=
  if v.py_truthy then "Edition: " ++ v.pyStr ++ "\n" else ""

/-- Email line for the image size, present only when truthy. -/
def imageSizeEmail (v : CellValue) : String :=
  if v.py_truthy then "Image Size: " ++ v.pyStr ++ "\"\n" else ""

/-- Email line for the paper size, present only when truthy. -/
def paperSizeEmail (v : CellValue) : String :=
  if v.py_truthy then "Paper Size: " ++ v.pyStr ++ "\"\n" else ""

/-- Email line for the frame size, present only when truthy. -/
def frameSizeEmail (v : CellValue) : String :=
  if v.py_truthy then "Frame Size: " ++ v.pyStr ++ "\"\n" else ""

/-- Email lines for the edition description, present only when truthy. -/
def editionDescEmail (v : CellValue) : String :=
  if v.py_truthy then "\nDetails: " ++ v.pyStr ++ "\n" else ""

/-- Email line for the medium, present only when truthy. -/
def mediumEmail (v : CellValue) : String :=
  if v.py_truthy then "Medium: " ++ v.pyStr ++ "\n" else ""

/-- Email lines for the price, present only when truthy. -/
def priceEmail (v : CellValue) : String :=
  if v.py_truthy then "\nPrice: $" ++ v.pyStr ++ "\n" else ""

/-- The plain-text inquiry email body (source lines 385-406). -/
def email_body (f : RowFields) : String :=
  emailIntro ++ titleEmail f.title ++ invEmail f.inventory ++ seriesEmail f.series
  ++ yearEmail f.year ++ editionEmail f.edition ++ imageSizeEmail f.image_size
  ++ paperSizeEmail f.paper_size ++ frameSizeEmail f.frame_size
  ++ editionDescEmail f.edition_desc ++ mediumEmail f.medium ++ priceEmail f.price

/-- The inquiry email subject (source lines 408-410). -/
def email_subject (f : RowFields) : String :=
  "Inquiry: " ++ f.title.pyStr
  ++ (if f.inventory.py_truthy then " (" ++ f.inventory.pyStr ++ ")" else "")

/-- The `mailto:` deep link with percent-encoded subject and body. -/
def mailto_link (f : RowFields) : String :=
  "mailto:jofowood@gmail.com?subject=" ++ pyQuote (email_subject f)
  ++ "&body=" ++ pyQuote (email_body f)

/-- The Inquire button line. -/
def inquireLine (f : RowFields) : String :=
  "                        <a href=\"" ++ mailto_link f ++ "\" class=\"inquire-btn\">Inquire</a>\n"

/-- The Google Form base URL for purchase info. -/
def form_base_url : String :=
  "https://docs.google.com/forms/d/e/1FAIpQLSeexuq8vTsj5KrOr4trdD1vFrIVnS31sMlGT8sQB_Egc3Idag/viewform"

/-- The published site base URL. -/
def github_base_url : String := "https://jofowood.github.io/art/art"

/-- The purchase-info deep link (title and published image URL as form
entries, percent-encoded). -/
def purchase_link (title image_filename : String) : String :=
  form_base_url ++ "?entry.370646706=" ++ pyQuote title
  ++ "&entry.673557102=" ++ pyQuote (github_base_url ++ "/images/" ++ image_filename)

/-- The Purchase Info button line. -/
def purchaseLine (title image_filename : String) : String :=
  "                        <a href=\"" ++ purchase_link title image_filename
  ++ "\" class=\"inquire-btn\" target=\"_blank\">Purchase Info</a>\n"

/-- The closing tags of one card (source lines 428-431). -/
def cardClose : String :=
  "                    </div>\n                </div>\n            </div>\n"

/-- The closing tags of the page (source lines 433-436). -/
def htmlFooter : String := "        </div>\n    </div>\n</body>\n</html>"

/-- The first image of an image cell: element `[0]` of a list, or the value
itself when it is a plain string (source lines 337, 506). -/
def firstImage : CellValue → String
  | .imageList l => l.headD ""
  | .str s => s

/-- The cached-image filename the rendered card points its `img src` at
(source lines 330-338): derived from the first element of the row and image
column. -/
def htmlRowImageFilename (row : Row) (image_column : String) : String :=
  get_image_filename (firstImage (rowGetD row image_column (.imageList [])))

/-- One card of the grid, or `""` for a row whose image cell is falsy (the
loop body of `generate_html`, source lines 330-431). -/
def rowCard (config : ConfigDict) (image_column : String) (row : Row) : String :=
  let images := rowGetD row image_column (.imageList [])
  if !images.py_truthy then "" else
  let image_filename := htmlRowImageFilename row image_column
  let f := extractFields row
  cardTop image_filename f.title.pyStr
  ++ invCard f.inventory ++ seriesCard f.series ++ yearCard f.year ++ editionCard f.edition
  ++ imageSizeCard f.image_size ++ paperSizeCard f.paper_size ++ frameSizeCard f.frame_size
  ++ editionDescCard f.edition_desc ++ mediumCard f.medium ++ priceCard f.price
  ++ inquireLine f
  ++ (if ((cfgGet config "include_purchase_button").getD (JVal.bool false)).py_truthy
      then purchaseLine f.title.pyStr image_filename else "")
  ++ cardClose

/-- `generate_html(rows, image_column, columns, header_logo, header_title,
page_title, config)`. The source also builds a `column_map` from `columns`
that is never used afterwards; it does not influence the output. -/
def generate_html (rows : List Row) (image_column : String) (columns : List Column)
    (header_logo header_title page_title : String) (config : ConfigDict) : String :=
  let _column_map := columns.map (fun col => (colGet col "name", col))
  htmlHeader page_title header_logo header_title
  ++ String.join (rows.map (rowCard config image_column))
  ++ htmlFooter


/-! ## Substring utilities (Python `in`, `split`, `count`) -/

/-- Whether `pat` is an initial segment of `cs`. -/
def headMatches : List Char → List Char → Bool
  | [], _ => true
  | _ :: _, [] => false
  | p :: ps, c :: cs => p == c && headMatches ps cs

/-- Python `pat in s` on character lists. -/
def hasSub : List Char → List Char → Bool
  | [], pat => headMatches pat []
  | c :: rest, pat => headMatches pat (c :: rest) || hasSub rest pat

/-- Number of (possibly overlapping) occurrences of `pat`; the markers counted
below never overlap themselves, so this agrees with `str.count` on them. -/
def countSub : List Char → List Char → Nat
  | [], _ => 0
  | c :: rest, pat => (if headMatches pat (c :: rest) then 1 else 0) + countSub rest pat

/-- `countSub` on strings. -/
def countSubStr (s pat : String) : Nat := countSub s.data pat.data

/-- `hasSub` on strings. -/
def hasSubStr (s pat : String) : Bool := hasSub s.data pat.data

/-- Python `s.split(sep)` for a multi-character separator; `fuel` bounds the
recursion (structural, kernel-evaluable). -/
def splitOnSubAux (sep : List Char) : Nat → List Char → List Char → List (List Char)
  | _, [], acc => [acc.reverse]
  | 0, cs, acc => [acc.reverse ++ cs]
  | fuel + 1, c :: cs, acc =>
      if headMatches sep (c :: cs) then
        acc.reverse :: splitOnSubAux sep fuel ((c :: cs).drop sep.length) []
      else splitOnSubAux sep fuel cs (c :: acc)

/-- Python `s.split(sep)` (non-empty separator). -/
def splitOnSub (sep cs : List Char) : List (List Char) :=
  splitOnSubAux sep cs.length cs []

/-- Python `s.split(sep, 1)`: at most one split. -/
def splitOnce (sep : Char) (cs : List Char) : List (List Char) :=
  match cs.findIdx? (· == sep) with
  | some i => [cs.take i, cs.drop (i + 1)]
  | none => [cs]

/-! ## `download_image` and `main`, with explicit state -/

/-- A table descriptor from the base metadata. -/
structure Table where
  name : String
  columns : List Column
deriving Repr, DecidableEq

/-- One HTTP request `main` or `download_image` can issue. -/
inductive Request where
  | token
  | metadata
  | rows (table_name view_name : String)
  | downloadLink (path : String)
  | fileGet (url : String)
deriving Repr, DecidableEq

/-- The remote responses one run observes: each endpoint either fails
(non-success status and body -- `raise_for_status` raises) or succeeds. -/
structure RemoteEnv where
  tokenResp : Except (Nat × String) (String × String)
  metaResp : Except (Nat × String) (List Table)
  rowsResp : Except (Nat × String) (List Row)
  linkResp : String → Except (Nat × String) String
  dataResp : String → Except (Nat × String) Bool

/-- Result of one `download_image` call: return value, file set after the
call, network requests made, lines printed, and whether an HTTP error was
raised (which aborts the whole run). -/
structure DlResult where
  ok : Bool
  fs : List String
  reqs : List Request
  msgs : List String
  httpError : Bool
deriving Repr, DecidableEq

/-- `download_image(image_url, api_token, output_path)` (source lines
110-154) against file set `fs`: return immediately when the output path
exists; otherwise parse the URL path around `/asset/`, and only then perform
the two network requests and record the written file. -/
def download_image (env : RemoteEnv) (image_url : String) (output_path : String)
    (fs : List String) : DlResult :=
  if fs.contains output_path then
    ⟨true, fs, [], ["  ✓ Already exists: " ++ pathName output_path], false⟩
  else
  let path := unquote (urlparse_path image_url)
  if hasSubStr path "/asset/" then
    let after_asset := (splitOnSub "/asset/".data path.data).getD 1 []
    match splitOnce '/' after_asset with
    | [_, relative_path] =>
        let req1 := Request.downloadLink (⟨relative_path⟩ : String)
        match env.linkResp (⟨relative_path⟩ : String) with
        | .error _ => ⟨false, fs, [req1], [], true⟩
        | .ok download_url =>
            match env.dataResp download_url with
            | .error _ => ⟨false, fs, [req1, Request.fileGet download_url], [], true⟩
            | .ok _ =>
                ⟨true, output_path :: fs, [req1, Request.fileGet download_url],
                 ["  ✓ Downloaded: " ++ pathName output_path], false⟩
    | _ => ⟨false, fs, [], ["  ✗ Could not parse path: " ++ path], false⟩
  else ⟨false, fs, [], ["  ✗ Invalid URL format: " ++ image_url], false⟩

/-- Python `str()` of a config value. -/
def JVal.pyStr : JVal → String
  | .str s => s
  | .bool b => if b then "True" else "False"

/-- The fixed table name constant. -/
def TABLE_NAME : String := "Works & Exhibits"

/-- The shared image cache directory constant. -/
def IMAGES_DIR : String := "art/images"

/-- `IMAGES_DIR / filename` (`pathlib` join; an absolute right side wins). -/
def pyPathJoin (dir fn : String) : String :=
  if fn.data.headD ' ' == '/' then fn else dir ++ "/" ++ fn

/-- The cache filename the download loop in `main` stores a row's first image
under (source lines 500-508). -/
def mainRowImageFilename (row : Row) (image_column : String) : String :=
  get_image_filename (firstImage (rowGetD row image_column (.imageList [])))

/-- The name `main` prints for a row (source line 510). -/
def rowPrintName (row : Row) : String :=
  ((rowGet row "gScu").getD ((rowGet row "Title").getD
    ((rowGet row "Name").getD (.str "Untitled")))).pyStr

/-- State threaded through the download loop of `main`. -/
structure LoopState where
  fs : List String
  reqs : List Request
  msgs : List String
  image_count : Nat
  httpError : Bool
deriving Repr, DecidableEq

/-- One iteration of the download loop (source lines 500-512): skip rows with
a falsy image cell; otherwise print the row name, call `download_image`
(ignoring its return value) and count the row. An HTTP error stops the loop
(the exception propagates). -/
def downloadStep (env : RemoteEnv) (image_column : String) (total : Nat)
    (st : LoopState) (iRow : Nat × Row) : LoopState :=
  if st.httpError then st else
  let row := iRow.2
  let images := rowGetD row image_column (.imageList [])
  if !images.py_truthy then st else
  let image_url := firstImage images
  let output_path := pyPathJoin IMAGES_DIR (mainRowImageFilename row image_column)
  let nameLine := "   [" ++ toString (iRow.1 + 1) ++ "/" ++ toString total ++ "] "
    ++ rowPrintName row
  let d := download_image env image_url output_path st.fs
  { fs := d.fs, reqs := st.reqs ++ d.reqs, msgs := st.msgs ++ [nameLine] ++ d.msgs,
    image_count := if d.httpError then st.image_count else st.image_count + 1,
    httpError := d.httpError }

/-- The observable outcome of one run of `main`. -/
structure MainResult where
  exitCode : Nat
  printed : List String
  reqs : List Request
  fs : List String
  htmlWritten : Option (String × String)
deriving Repr, DecidableEq

/-- `main()` from config loading onward (source lines 450-527), over a parsed
config object, a remote environment and an initial cache-file set. Directory
creation is not modelled. An uncaught exception (HTTP error, or no table
named `TABLE_NAME`) exits with code 1; `sys.exit(1)` exits with code 1; the
`return` on a falsy image column exits the process with code 0. The catalog
HTML is written only as the final step. -/
def mainRun (config_file : String) (config0 : ConfigDict) (env : RemoteEnv)
    (fs0 : List String) : MainResult :=
  match load_config config0 with
  | .error (msg, code) => ⟨code, [msg], [], fs0, none⟩
  | .ok config =>
  let view_name := ((cfgGet config "view_name").getD (.str "")).pyStr
  let output_file := ((cfgGet config "output_file").getD (.str "")).pyStr
  let header_logo := ((cfgGet config "header_logo").getD (.str "")).pyStr
  let header_title := ((cfgGet config "header_title").getD (.str "")).pyStr
  let page_title := ((cfgGet config "page_title").getD (.str "")).pyStr
  let msgs := ["SeaTable Static Catalog Generator", (⟨List.replicate 50 '='⟩ : String),
    "Config: " ++ config_file, "View: " ++ view_name, "Output: " ++ output_file,
    "\n1. Authenticating with SeaTable..."]
  let reqs := [Request.token]
  match env.tokenResp with
  | .error _ => ⟨1, msgs, reqs, fs0, none⟩
  | .ok (_, base_uuid) =>
  let msgs := msgs ++ ["   ✓ Connected to base: " ++ (⟨base_uuid.data.take 8⟩ : String) ++ "...",
    "\n2. Loading base structure..."]
  let reqs := reqs ++ [Request.metadata]
  match env.metaResp with
  | .error _ => ⟨1, msgs, reqs, fs0, none⟩
  | .ok tables =>
  match tables.find? (fun t => t.name == TABLE_NAME) with
  | none => ⟨1, msgs, reqs, fs0, none⟩
  | some table =>
  let msgs := msgs ++ ["   ✓ Using table: " ++ table.name]
  let image_column? := find_image_column table.columns
  if (image_column?.getD "") == "" then
    ⟨0, msgs ++ ["   ✗ No image column found!"], reqs, fs0, none⟩
  else
  let image_column := image_column?.getD ""
  let msgs := msgs ++ ["   ✓ Image column: " ++ image_column,
    "\n3. Loading rows from view: " ++ view_name ++ "..."]
  let reqs := reqs ++ [Request.rows table.name view_name]
  match env.rowsResp with
  | .error _ => ⟨1, msgs, reqs, fs0, none⟩
  | .ok rows =>
  let msgs := msgs ++ ["   ✓ Found " ++ toString rows.length ++ " rows",
    "\n4. Downloading images to " ++ IMAGES_DIR ++ "..."]
  let st := rows.enum.foldl (downloadStep env image_column rows.length)
    ⟨fs0, reqs, msgs, 0, false⟩
  if st.httpError then ⟨1, st.msgs, st.reqs, st.fs, none⟩
  else
  let msgs := st.msgs ++ ["\n   ✓ Processed " ++ toString st.image_count ++ " images",
    "\n5. Generating " ++ output_file ++ "..."]
  let html := generate_html rows image_column table.columns header_logo header_title
    page_title config
  ⟨0, msgs ++ ["   ✓ Catalog generated!", "\n✓ Complete!"], st.reqs, st.fs,
    some (output_file, html)⟩

/-! ## Counting across concatenations -/

set_option maxRecDepth 8000
set_option maxHeartbeats 3000000

/-- Occurrences of `p` that start inside `x` when `x` is followed by `y`
(they may run past the boundary into `y`). -/
def countSubPre (p : List Char) : List Char → List Char → Nat
  | [], _ => 0
  | c :: xs, y => (if headMatches p (c :: (xs ++ y)) then 1 else 0) + countSubPre p xs y

/-- Exact decomposition of occurrence counting over an append: occurrences
starting in the left part plus occurrences in the right part. -/
theorem countSub_append (p : List Char) :
    ∀ x y, countSub (x ++ y) p = countSubPre p x y + countSub y p := by
  intro x y
  induction x with
  | nil => simp [countSubPre]
  | cons c xs ih =>
      simp only [List.cons_append, List.append_eq, countSub, countSubPre, ih]
      omega

/-- `countSubStr` over a string concatenation. -/
theorem countSubStr_append (a b pat : String) :
    countSubStr (a ++ b) pat
      = countSubPre pat.data a.data b.data + countSubStr b pat := by
  simp only [countSubStr, String.data_append]
  exact countSub_append pat.data a.data b.data

/-- `String.join` of a one-element list. -/
theorem string_join_singleton (s : String) : String.join [s] = s := by
  cases s
  simp [String.join, String.append]

/-- `String.join` of an empty list. -/
theorem string_join_nil : String.join [] = "" := rfl

/-! ## Scenario fixtures -/

/-- The end-to-end scenario row: title Dawn, inventory A-1, price 500, one
image reference. -/
def dawnRow : Row :=
  [("gScu", .str "Dawn"), ("0000", .str "A-1"), ("upE4", .str "500"),
   ("Jcpv", .imageList
     ["https://cloud.seatable.io/workspace/1/asset/uuid-123/images/2024-02/dawn.jpg"])]

/-- A complete config with `include_purchase_button = false`. -/
def cfgNoButton : ConfigDict :=
  [("view_name", .str "V"), ("output_file", .str "o.html"),
   ("header_logo", .str "l.png"), ("header_title", .str "t.png"),
   ("page_title", .str "P"), ("include_purchase_button", JVal.bool false)]

/-- The same config with `include_purchase_button = true`. -/
def cfgWithButton : ConfigDict :=
  [("view_name", .str "V"), ("output_file", .str "o.html"),
   ("header_logo", .str "l.png"), ("header_title", .str "t.png"),
   ("page_title", .str "P"), ("include_purchase_button", JVal.bool true)]

/-- A row with no image field at all. -/
def noImageRow : Row := [("gScu", .str "X")]

/-- A row whose image field is an empty list. -/
def emptyImageRow : Row := [("gScu", .str "Y"), ("Jcpv", .imageList [])]

/-- Whether `t` is a final segment of `s`. -/
def endsWithStr (s t : String) : Bool := headMatches t.data.reverse s.data.reverse

/-- C8: rendering `dawnRow` with `include_purchase_button=false` yields exactly
one card, exactly one `mailto:` link whose subject percent-encodes
`Inquiry: Dawn (A-1)`, and no purchase-info link; with the button enabled the
same row yields one card carrying two `inquire-btn` deep links (the second
being the Purchase Info link); rows with a missing or empty image field
render exactly as an empty row list does (zero cards, absent entirely). -/
theorem C8_end_to_end_scenario :
    countSubStr (generate_html [dawnRow] "Jcpv" [] "l.png" "t.png" "P" cfgNoButton)
      "class=\"artwork-card\"" = 1 ∧
    countSubStr (generate_html [dawnRow] "Jcpv" [] "l.png" "t.png" "P" cfgNoButton)
      "mailto:" = 1 ∧
    countSubStr (generate_html [dawnRow] "Jcpv" [] "l.png" "t.png" "P" cfgNoButton)
      ("subject=" ++ pyQuote "Inquiry: Dawn (A-1)" ++ "&body=") = 1 ∧
    countSubStr (generate_html [dawnRow] "Jcpv" [] "l.png" "t.png" "P" cfgNoButton)
      "Purchase Info" = 0 ∧
    countSubStr (generate_html [dawnRow] "Jcpv" [] "l.png" "t.png" "P" cfgWithButton)
      "class=\"artwork-card\"" = 1 ∧
    countSubStr (generate_html [dawnRow] "Jcpv" [] "l.png" "t.png" "P" cfgWithButton)
      "class=\"inquire-btn\"" = 2 ∧
    countSubStr (generate_html [dawnRow] "Jcpv" [] "l.png" "t.png" "P" cfgWithButton)
      "Purchase Info" = 1 ∧
    generate_html [noImageRow, emptyImageRow] "Jcpv" [] "l.png" "t.png" "P" cfgNoButton
      = generate_html [] "Jcpv" [] "l.png" "t.png" "P" cfgNoButton := by
  have hfn : htmlRowImageFilename dawnRow "Jcpv" = "b03f20ecdcec.jpg" := by decide
  have hf : extractFields dawnRow
      = ⟨.str "A-1", .str "Dawn", .str "", .str "", .str "", .str "", .str "", .str "",
         .str "", .str "", .str "500"⟩ := by decide
  have h1 : rowCard cfgNoButton "Jcpv" noImageRow = "" := by decide
  have h2 : rowCard cfgNoButton "Jcpv" emptyImageRow = "" := by decide
  refine ⟨?_, ?_, ?_, ?_, ?_, ?_, ?_, ?_⟩
  case _ =>
    simp only [generate_html, htmlHeader, htmlFooter, List.map_cons, List.map_nil,
      string_join_singleton, rowCard, hfn, hf, rowGetD, rowGet, dawnRow, cfgNoButton,
      cfgWithButton,
      List.find?, cardTop, invCard, seriesCard, yearCard, editionCard, imageSizeCard,
      paperSizeCard, frameSizeCard, editionDescCard, mediumCard, priceCard, inquireLine,
      mailto_link, email_subject, email_body, emailIntro, titleEmail, invEmail, seriesEmail,
      yearEmail, editionEmail, imageSizeEmail, paperSizeEmail, frameSizeEmail,
      editionDescEmail, mediumEmail, priceEmail, CellValue.py_truthy, CellValue.pyStr,
      cfgGet, JVal.py_truthy, purchaseLine, purchase_link, form_base_url, github_base_url,
      cardClose, String.append_assoc, Bool.not_true, Bool.not_false, if_true, if_false]
    simp only [countSubStr_append]
    decide
  case _ =>
    simp only [generate_html, htmlHeader, htmlFooter, List.map_cons, List.map_nil,
      string_join_singleton, rowCard, hfn, hf, rowGetD, rowGet, dawnRow, cfgNoButton,
      cfgWithButton,
      List.find?, cardTop, invCard, seriesCard, yearCard, editionCard, imageSizeCard,
      paperSizeCard, frameSizeCard, editionDescCard, mediumCard, priceCard, inquireLine,
      mailto_link, email_subject, email_body, emailIntro, titleEmail, invEmail, seriesEmail,
      yearEmail, editionEmail, imageSizeEmail, paperSizeEmail, frameSizeEmail,
      editionDescEmail, mediumEmail, priceEmail, CellValue.py_truthy, CellValue.pyStr,
      cfgGet, JVal.py_truthy, purchaseLine, purchase_link, form_base_url, github_base_url,
      cardClose, String.append_assoc, Bool.not_true, Bool.not_false, if_true, if_false]
    simp only [countSubStr_append]
    decide
  case _ =>
    simp only [generate_html, htmlHeader, htmlFooter, List.map_cons, List.map_nil,
      string_join_singleton, rowCard, hfn, hf, rowGetD, rowGet, dawnRow, cfgNoButton,
      cfgWithButton,
      List.find?, cardTop, invCard, seriesCard, yearCard, editionCard, imageSizeCard,
      paperSizeCard, frameSizeCard, editionDescCard, mediumCard, priceCard, inquireLine,
      mailto_link, email_subject, email_body, emailIntro, titleEmail, invEmail, seriesEmail,
      yearEmail, editionEmail, imageSizeEmail, paperSizeEmail, frameSizeEmail,
      editionDescEmail, mediumEmail, priceEmail, CellValue.py_truthy, CellValue.pyStr,
      cfgGet, JVal.py_truthy, purchaseLine, purchase_link, form_base_url, github_base_url,
      cardClose, String.append_assoc, Bool.not_true, Bool.not_false, if_true, if_false]
    simp only [countSubStr_append]
    decide
  case _ =>
    simp only [generate_html, htmlHeader, htmlFooter, List.map_cons, List.map_nil,
      string_join_singleton, rowCard, hfn, hf, rowGetD, rowGet, dawnRow, cfgNoButton,
      cfgWithButton,
      List.find?, cardTop, invCard, seriesCard, yearCard, editionCard, imageSizeCard,
      paperSizeCard, frameSizeCard, editionDescCard, mediumCard, priceCard, inquireLine,
      mailto_link, email_subject, email_body, emailIntro, titleEmail, invEmail, seriesEmail,
      yearEmail, editionEmail, imageSizeEmail, paperSizeEmail, frameSizeEmail,
      editionDescEmail, mediumEmail, priceEmail, CellValue.py_truthy, CellValue.pyStr,
      cfgGet, JVal.py_truthy, purchaseLine, purchase_link, form_base_url, github_base_url,
      cardClose, String.append_assoc, Bool.not_true, Bool.not_false, if_true, if_false]
    simp only [countSubStr_append]
    decide
  case _ =>
    simp only [generate_html, htmlHeader, htmlFooter, List.map_cons, List.map_nil,
      string_join_singleton, rowCard, hfn, hf, rowGetD, rowGet, dawnRow, cfgNoButton,
      cfgWithButton,
      List.find?, cardTop, invCard, seriesCard, yearCard, editionCard, imageSizeCard,
      paperSizeCard, frameSizeCard, editionDescCard, mediumCard, priceCard, inquireLine,
      mailto_link, email_subject, email_body, emailIntro, titleEmail, invEmail, seriesEmail,
      yearEmail, editionEmail, imageSizeEmail, paperSizeEmail, frameSizeEmail,
      editionDescEmail, mediumEmail, priceEmail, CellValue.py_truthy, CellValue.pyStr,
      cfgGet, JVal.py_truthy, purchaseLine, purchase_link, form_base_url, github_base_url,
      cardClose, String.append_assoc, Bool.not_true, Bool.not_false, if_true, if_false]
    simp only [countSubStr_append]
    decide
  case _ =>
    simp only [generate_html, htmlHeader, htmlFooter, List.map_cons, List.map_nil,
      string_join_singleton, rowCard, hfn, hf, rowGetD, rowGet, dawnRow, cfgNoButton,
      cfgWithButton,
      List.find?, cardTop, invCard, seriesCard, yearCard, editionCard, imageSizeCard,
      paperSizeCard, frameSizeCard, editionDescCard, mediumCard, priceCard, inquireLine,
      mailto_link, email_subject, email_body, emailIntro, titleEmail, invEmail, seriesEmail,
      yearEmail, editionEmail, imageSizeEmail, paperSizeEmail, frameSizeEmail,
      editionDescEmail, mediumEmail, priceEmail, CellValue.py_truthy, CellValue.pyStr,
      cfgGet, JVal.py_truthy, purchaseLine, purchase_link, form_base_url, github_base_url,
      cardClose, String.append_assoc, Bool.not_true, Bool.not_false, if_true, if_false]
    simp only [countSubStr_append]
    decide
  case _ =>
    simp only [generate_html, htmlHeader, htmlFooter, List.map_cons, List.map_nil,
      string_join_singleton, rowCard, hfn, hf, rowGetD, rowGet, dawnRow, cfgNoButton,
      cfgWithButton,
      List.find?, cardTop, invCard, seriesCard, yearCard, editionCard, imageSizeCard,
      paperSizeCard, frameSizeCard, editionDescCard, mediumCard, priceCard, inquireLine,
      mailto_link, email_subject, email_body, emailIntro, titleEmail, invEmail, seriesEmail,
      yearEmail, editionEmail, imageSizeEmail, paperSizeEmail, frameSizeEmail,
      editionDescEmail, mediumEmail, priceEmail, CellValue.py_truthy, CellValue.pyStr,
      cfgGet, JVal.py_truthy, purchaseLine, purchase_link, form_base_url, github_base_url,
      cardClose, String.append_assoc, Bool.not_true, Bool.not_false, if_true, if_false]
    simp only [countSubStr_append]
    decide
  case _ =>
    show htmlHeader "P" "l.png" "t.png"
        ++ String.join ([noImageRow, emptyImageRow].map (rowCard cfgNoButton "Jcpv"))
        ++ htmlFooter
      = htmlHeader "P" "l.png" "t.png" ++ String.join ([].map (rowCard cfgNoButton "Jcpv"))
        ++ htmlFooter
    rw [List.map_cons, List.map_cons, List.map_nil, h1, h2]
    rfl

/-! ## C2: omission of absent or empty fields -/

/-- C2 (counterexample): a present-but-empty title is a falsy display field,
yet the inquiry email body still carries an empty `Title:` line and the card
an empty title element -- the title is not omitted when empty. -/
theorem C2_counterexample :
    (extractFields [("gScu", CellValue.str "")]).title.py_truthy = false ∧
    email_body (extractFields [("gScu", CellValue.str "")])
      = "I" ++ sq ++ "m interested in the following artwork:\n\nTitle: \n" ∧
    hasSubStr
      (cardTop "b03f20ecdcec.jpg" (extractFields [("gScu", CellValue.str "")]).title.pyStr)
      "<div class=\"artwork-title\"></div>" = true := by
  decide

/-- C2 (amended): every display field except the title contributes nothing to
the card or the email body when it is absent or empty (its default is the
empty string, so absence and emptiness coincide after extraction), and the
title defaults to the literal `Untitled` exactly when its key is absent. -/
theorem C2_empty_fields_omitted :
    (∀ v : CellValue, v.py_truthy = false →
      invCard v = "" ∧ seriesCard v = "" ∧ yearCard v = "" ∧ editionCard v = "" ∧
      imageSizeCard v = "" ∧ paperSizeCard v = "" ∧ frameSizeCard v = "" ∧
      editionDescCard v = "" ∧ mediumCard v = "" ∧ priceCard v = "" ∧
      invEmail v = "" ∧ seriesEmail v = "" ∧ yearEmail v = "" ∧ editionEmail v = "" ∧
      imageSizeEmail v = "" ∧ paperSizeEmail v = "" ∧ frameSizeEmail v = "" ∧
      editionDescEmail v = "" ∧ mediumEmail v = "" ∧ priceEmail v = "") ∧
    (∀ row : Row, rowGet row "gScu" = none →
      (extractFields row).title = CellValue.str "Untitled") := by
  constructor
  · intro v h
    simp [invCard, seriesCard, yearCard, editionCard, imageSizeCard, paperSizeCard,
      frameSizeCard, editionDescCard, mediumCard, priceCard, invEmail, seriesEmail,
      yearEmail, editionEmail, imageSizeEmail, paperSizeEmail, frameSizeEmail,
      editionDescEmail, mediumEmail, priceEmail, h]
  · intro row h
    simp [extractFields, rowGetD, h]

/-- Witness for `C2_empty_fields_omitted` at an empty cell and an empty row. -/
theorem C2_empty_fields_omitted_witness :
    priceCard (CellValue.str "") = "" ∧ (extractFields []).title = CellValue.str "Untitled" :=
  ⟨(C2_empty_fields_omitted.1 (CellValue.str "") rfl).2.2.2.2.2.2.2.2.2.1,
   C2_empty_fields_omitted.2 [] rfl⟩

/-! ## C3: shape of derived filenames -/

/-- The sixteen lowercase hex digits. -/
def hexDigitsLower : List Char := "0123456789abcdef".data

/-- An MD5 digest is 16 bytes. -/
theorem md5Bytes_length (m : List Nat) : (md5Bytes m).length = 16 := by
  simp [md5Bytes, toLE4]

/-- Hex digits of nibbles are lowercase hex characters. -/
theorem hexChar_mem : ∀ n < 16, hexChar n ∈ hexDigitsLower := by decide

/-- An MD5 hex digest has 32 characters. -/
theorem md5hex_data_length (m : List Nat) : (md5hex m).data.length = 32 := by
  have h : ∀ l : List Nat, ((l.map byteHex).flatten).length = 2 * l.length := by
    intro l
    induction l with
    | nil => simp
    | cons b bs ih => simp [byteHex, ih]; omega
  simp [md5hex, h, md5Bytes_length]

/-- Every character of an MD5 hex digest is a lowercase hex digit. -/
theorem md5hex_chars (m : List Nat) : ∀ c ∈ (md5hex m).data, c ∈ hexDigitsLower := by
  intro c hc
  simp only [md5hex, List.mem_flatten, List.mem_map] at hc
  obtain ⟨l, ⟨b, _, hb⟩, hcl⟩ := hc
  subst hb
  simp only [byteHex, List.mem_cons, List.not_mem_nil, or_false] at hcl
  rcases hcl with h | h <;> subst h <;>
    exact hexChar_mem _ (Nat.mod_lt _ (by norm_num))

/-- C3 (amended): a derived filename is the first 12 characters of the 32
lowercase-hex MD5 digest of the URL-decoded URL path, followed by the final
path component's extension; the spec example `.../file.JPG` does end in
`.JPG`, while that extension is empty for a final component with no interior
dot (see `C3_counterexample`). -/
theorem C3_filename_shape :
    (∀ url : String,
      (get_image_filename url).data
        = (md5hex (strBytes (unquote (urlparse_path url)))).data.take 12
          ++ (pathSuffix (pathName (unquote (urlparse_path url)))).data ∧
      ((md5hex (strBytes (unquote (urlparse_path url)))).data.take 12).length = 12 ∧
      (∀ c ∈ (md5hex (strBytes (unquote (urlparse_path url)))).data.take 12,
        c ∈ hexDigitsLower)) ∧
    endsWithStr (get_image_filename
      "https://cloud.seatable.io/workspace/1/asset/u/images/2024-02/file.JPG") ".JPG"
      = true := by
  constructor
  · intro url
    refine ⟨?_, ?_, ?_⟩
    · simp [get_image_filename, String.data_append]
    · rw [List.length_take, md5hex_data_length]
      decide
    · intro c hc
      exact md5hex_chars _ c (List.mem_of_mem_take hc)
  · decide

/-- C3 (counterexample): a URL whose path ends in `.JPG` but whose final
component is the bare dotfile `.JPG` has no extension under the source's
suffix rule, so the derived filename is 12 hex characters and does not end in
`.JPG`. -/
theorem C3_counterexample :
    endsWithStr (unquote (urlparse_path
      "https://cloud.seatable.io/workspace/1/asset/u/.JPG")) ".JPG" = true ∧
    get_image_filename "https://cloud.seatable.io/workspace/1/asset/u/.JPG"
      = "19a4a6753d77" ∧
    endsWithStr (get_image_filename
      "https://cloud.seatable.io/workspace/1/asset/u/.JPG") ".JPG" = false := by
  decide

/-! ## C5: config validation -/

/-- A config carrying exactly the five required fields. -/
def cfgRequiredOnly : ConfigDict :=
  [("view_name", .str "X"), ("output_file", .str "o.html"), ("header_logo", .str "l.png"),
   ("header_title", .str "t.png"), ("page_title", .str "P")]

/-- C5: loading `{"view_name": "X"}` fails with exit code 1 naming exactly the
four missing fields in source order, and a successful load of a config
without `include_purchase_button` populates that field with `False`. -/
theorem C5_config_validation :
    load_config [("view_name", JVal.str "X")]
      = .error
        ("Error: Missing required config fields: output_file, header_logo, header_title, page_title",
         1) ∧
    (∀ cfg cfg' : ConfigDict, load_config cfg = .ok cfg' →
      cfgHas cfg "include_purchase_button" = false →
      cfgGet cfg' "include_purchase_button" = some (JVal.bool false)) := by
  constructor
  · rfl
  · intro cfg cfg' hok hhas
    have hnone : cfg.find? (fun p => p.1 == "include_purchase_button") = none := by
      rw [List.find?_eq_none]
      intro x hx
      simp only [cfgHas, List.any_eq_false] at hhas
      exact fun hbeq => hhas x hx hbeq
    unfold load_config at hok
    rw [hhas] at hok
    simp only [Bool.false_eq_true, if_false] at hok
    split at hok
    · exact absurd hok (by simp)
    · have : cfg ++ [("include_purchase_button", JVal.bool false)] = cfg' := by
        simpa using hok
      subst this
      simp [cfgGet, List.find?_append, hnone]

/-- Witness for `C5_config_validation` at a config with only the required
fields. -/
theorem C5_config_validation_witness :
    cfgGet (cfgRequiredOnly ++ [("include_purchase_button", JVal.bool false)])
      "include_purchase_button" = some (JVal.bool false) :=
  C5_config_validation.2 cfgRequiredOnly
    (cfgRequiredOnly ++ [("include_purchase_button", JVal.bool false)]) rfl rfl

/-! ## C9: image-column selection -/

/-- An image-typed column whose `key` is present but empty. -/
def cexColumns : List Column := [[("type", "image"), ("key", ""), ("name", "N")]]

/-- C9 (counterexample): with a single image column whose key is present but
empty, selection returns the column name, not the (present) key. -/
theorem C9_counterexample :
    find_image_column cexColumns = some "N" ∧
    colGet [("type", "image"), ("key", ""), ("name", "N")] "key" = some "" ∧
    some "N" ≠ some "" := by
  decide

/-- C9 (amended): a column keyed `Jcpv` wins regardless of type; otherwise the
first image-typed column is used, with Python `or` semantics between its key
and its name (an absent or empty key falls back to the name, which may itself
be absent); with no `Jcpv` key and no image-typed column, no column is
found. -/
theorem C9_image_column_selection :
    (∀ (cols : List Column) (col : Column),
        cols.find? (fun c => colGet c "key" == some "Jcpv") = some col →
        find_image_column cols = some "Jcpv") ∧
    (∀ (cols : List Column) (col : Column),
        cols.find? (fun c => colGet c "key" == some "Jcpv") = none →
        cols.find? (fun c => colGet c "type" == some "image") = some col →
        find_image_column cols = pyOr (colGet col "key") (colGet col "name")) ∧
    (∀ cols : List Column,
        cols.find? (fun c => colGet c "key" == some "Jcpv") = none →
        cols.find? (fun c => colGet c "type" == some "image") = none →
        find_image_column cols = none) ∧
    (∀ (k : String) (y : Option String), k ≠ "" → pyOr (some k) y = some k) ∧
    (∀ y : Option String, pyOr none y = y ∧ pyOr (some "") y = y) := by
  refine ⟨?_, ?_, ?_, ?_, ?_⟩
  · intro cols col h
    have hp := List.find?_some h
    simp only [beq_iff_eq] at hp
    simp [find_image_column, h, hp]
  · intro cols col h1 h2
    simp [find_image_column, h1, h2]
  · intro cols h1 h2
    simp [find_image_column, h1, h2]
  · intro k y hk
    simp [pyOr, hk]
  · intro y
    exact ⟨rfl, by simp [pyOr]⟩

/-- Witness for `C9_image_column_selection` at the single-column fixture. -/
theorem C9_image_column_selection_witness :
    find_image_column cexColumns
      = pyOr (colGet [("type", "image"), ("key", ""), ("name", "N")] "key")
          (colGet [("type", "image"), ("key", ""), ("name", "N")] "name") :=
  C9_image_column_selection.2.1 cexColumns [("type", "image"), ("key", ""), ("name", "N")]
    rfl rfl

/-! ## C10: rendered filename vs download target -/

/-- C10: the filename in a card's `img src` and the filename the download loop
stores the row's first image under are the same string -- both are
`get_image_filename` of the first element of the row's image cell; at the
scenario row, the rendered card's `img src` names exactly the basename of the
path the download loop writes to. -/
theorem C10_rendered_filename_matches_download :
    (∀ (row : Row) (image_column : String),
        htmlRowImageFilename row image_column = mainRowImageFilename row image_column) ∧
    (∀ (row : Row) (image_column : String),
        mainRowImageFilename row image_column
          = get_image_filename (firstImage (rowGetD row image_column (.imageList [])))) ∧
    pathName (pyPathJoin IMAGES_DIR (mainRowImageFilename dawnRow "Jcpv"))
      = htmlRowImageFilename dawnRow "Jcpv" ∧
    hasSubStr (rowCard cfgNoButton "Jcpv" dawnRow)
      ("<img src=\"images/" ++ mainRowImageFilename dawnRow "Jcpv" ++ "\"") = true := by
  refine ⟨fun row c => rfl, fun row c => rfl, by decide, by decide⟩

/-! ## C4: idempotent downloads -/

/-- A cache hit returns immediately: success, unchanged files, no requests,
the already-exists message, no error. -/
theorem download_image_cached (env : RemoteEnv) (u p : String) (fs : List String)
    (h : fs.contains p = true) :
    download_image env u p fs
      = ⟨true, fs, [], ["  ✓ Already exists: " ++ pathName p], false⟩ := by
  have h' : p ∈ fs := by simpa using h
  simp [download_image, h']

/-- A successful `download_image` call leaves the output path present in the
file set (it was present already, or was just written). -/
theorem download_image_ok_contains (env : RemoteEnv) (u p : String) (fs : List String)
    (h : (download_image env u p fs).ok = true) :
    (download_image env u p fs).fs.contains p = true := by
  revert h
  simp only [download_image]
  split
  next hc => intro _; simpa using hc
  next hc =>
    split
    · split
      · split
        · intro hok; simp at hok
        · split
          · intro hok; simp at hok
          · intro _; simp
      · intro hok; simp at hok
    · intro hok; simp at hok

/-- C4: with the cache path derived from the URL as `main` derives it, a call
whose file already exists returns at once reporting already-cached with no
network request; and after any successful call, a second call returns at once
reporting already-cached with no network request (so two calls perform
network I/O at most once). -/
theorem C4_ensure_downloaded_idempotent :
    ∀ (env : RemoteEnv) (image_url : String) (fs : List String),
      (fs.contains (pyPathJoin IMAGES_DIR (get_image_filename image_url)) = true →
        download_image env image_url (pyPathJoin IMAGES_DIR (get_image_filename image_url)) fs
          = ⟨true, fs, [],
             ["  ✓ Already exists: "
               ++ pathName (pyPathJoin IMAGES_DIR (get_image_filename image_url))], false⟩) ∧
      ((download_image env image_url
          (pyPathJoin IMAGES_DIR (get_image_filename image_url)) fs).ok = true →
        download_image env image_url (pyPathJoin IMAGES_DIR (get_image_filename image_url))
            (download_image env image_url
              (pyPathJoin IMAGES_DIR (get_image_filename image_url)) fs).fs
          = ⟨true,
             (download_image env image_url
               (pyPathJoin IMAGES_DIR (get_image_filename image_url)) fs).fs, [],
             ["  ✓ Already exists: "
               ++ pathName (pyPathJoin IMAGES_DIR (get_image_filename image_url))], false⟩) := by
  intro env image_url fs
  exact ⟨fun h => download_image_cached env image_url _ fs h,
         fun h => download_image_cached env image_url _ _
           (download_image_ok_contains env image_url _ fs h)⟩

/-- A remote environment whose every response succeeds. -/
def dlEnvOk : RemoteEnv :=
  ⟨.ok ("tok", "uuid-abcdef"), .ok [], .ok [], fun _ => .ok "https://dl/x", fun _ => .ok true⟩

/-- The scenario image URL. -/
def dawnUrl : String :=
  "https://cloud.seatable.io/workspace/1/asset/uuid-123/images/2024-02/dawn.jpg"

/-- Witness for `C4_ensure_downloaded_idempotent`: a cache hit, and a second
call after a fresh successful download. -/
theorem C4_ensure_downloaded_idempotent_witness :
    download_image dlEnvOk dawnUrl (pyPathJoin IMAGES_DIR (get_image_filename dawnUrl))
        [pyPathJoin IMAGES_DIR (get_image_filename dawnUrl)]
      = ⟨true, [pyPathJoin IMAGES_DIR (get_image_filename dawnUrl)], [],
         ["  ✓ Already exists: "
           ++ pathName (pyPathJoin IMAGES_DIR (get_image_filename dawnUrl))], false⟩ ∧
    download_image dlEnvOk dawnUrl (pyPathJoin IMAGES_DIR (get_image_filename dawnUrl))
        (download_image dlEnvOk dawnUrl
          (pyPathJoin IMAGES_DIR (get_image_filename dawnUrl)) []).fs
      = ⟨true,
         (download_image dlEnvOk dawnUrl
           (pyPathJoin IMAGES_DIR (get_image_filename dawnUrl)) []).fs, [],
         ["  ✓ Already exists: "
           ++ pathName (pyPathJoin IMAGES_DIR (get_image_filename dawnUrl))], false⟩ :=
  ⟨(C4_ensure_downloaded_idempotent dlEnvOk dawnUrl
      [pyPathJoin IMAGES_DIR (get_image_filename dawnUrl)]).1 (by decide),
   (C4_ensure_downloaded_idempotent dlEnvOk dawnUrl []).2 (by decide)⟩

/-! ## C7: unrecognized image paths are skipped -/

/-- The structural condition under which the URL path cannot be parsed around
`/asset/`: no `/asset/` occurrence, or no `/` separator after it. -/
def assetPathUnrecognized (image_url : String) : Prop :=
  hasSubStr (unquote (urlparse_path image_url)) "/asset/" = false ∨
  (splitOnce '/'
    ((splitOnSub (String.data "/asset/") (unquote (urlparse_path image_url)).data).getD 1 [])).length
    = 1

/-- On an unrecognized path, `download_image` makes no request, writes no
file, raises nothing, and (on a cache miss) reports failure. -/
theorem download_image_unrecognized (env : RemoteEnv) (u p : String) (fs : List String)
    (hbad : assetPathUnrecognized u) :
    (download_image env u p fs).reqs = [] ∧
    (download_image env u p fs).fs = fs ∧
    (download_image env u p fs).httpError = false ∧
    (fs.contains p = false → (download_image env u p fs).ok = false) := by
  simp only [download_image]
  split
  next hc =>
    refine ⟨rfl, rfl, rfl, fun hcf => ?_⟩
    simp at hc hcf
    exact absurd hc hcf
  next hc =>
    split
    next hsub =>
      split
      next head rel heq =>
        rcases hbad with hbad | hbad
        · simp [hbad] at hsub
        · rw [heq] at hbad
          simp at hbad
      next heq => exact ⟨rfl, rfl, rfl, fun _ => rfl⟩
    next hsub => exact ⟨rfl, rfl, rfl, fun _ => rfl⟩

/-- C7: when a row's first image URL lacks the `/asset/<id>/<rest>` structure,
the download fails with no network request and no file written, and the
download loop neither aborts nor changes its file or request state -- it
moves on to the remaining rows (only the printed log and the processed
counter advance). -/
theorem C7_unrecognized_image_skipped :
    (∀ (env : RemoteEnv) (image_url output_path : String) (fs : List String),
      fs.contains output_path = false →
      assetPathUnrecognized image_url →
      (download_image env image_url output_path fs).ok = false ∧
      (download_image env image_url output_path fs).reqs = [] ∧
      (download_image env image_url output_path fs).fs = fs ∧
      (download_image env image_url output_path fs).httpError = false) ∧
    (∀ (env : RemoteEnv) (image_column : String) (total i : Nat)
       (st : LoopState) (row : Row),
      st.httpError = false →
      (rowGetD row image_column (.imageList [])).py_truthy = true →
      assetPathUnrecognized (firstImage (rowGetD row image_column (.imageList []))) →
      (downloadStep env image_column total st (i, row)).fs = st.fs ∧
      (downloadStep env image_column total st (i, row)).reqs = st.reqs ∧
      (downloadStep env image_column total st (i, row)).httpError = false ∧
      (downloadStep env image_column total st (i, row)).image_count = st.image_count + 1) := by
  constructor
  · intro env image_url output_path fs hc hbad
    obtain ⟨h1, h2, h3, h4⟩ := download_image_unrecognized env image_url output_path fs hbad
    exact ⟨h4 hc, h1, h2, h3⟩
  · intro env image_column total i st row hE himg hbad
    obtain ⟨h1, h2, h3, _⟩ :=
      download_image_unrecognized env (firstImage (rowGetD row image_column (.imageList [])))
        (pyPathJoin IMAGES_DIR (mainRowImageFilename row image_column)) st.fs hbad
    simp [downloadStep, hE, himg, h1, h2, h3]

/-- A row whose single image URL has no `/asset/` segment. -/
def badImageRow : Row := [("gScu", .str "Bad"), ("Jcpv", .imageList ["https://h/no.jpg"])]

/-- Witness for `C7_unrecognized_image_skipped` at a URL with no `/asset/`
segment. -/
theorem C7_unrecognized_image_skipped_witness :
    ((download_image dlEnvOk "https://h/no.jpg" "p" []).ok = false ∧
     (download_image dlEnvOk "https://h/no.jpg" "p" []).reqs = [] ∧
     (download_image dlEnvOk "https://h/no.jpg" "p" []).fs = [] ∧
     (download_image dlEnvOk "https://h/no.jpg" "p" []).httpError = false) ∧
    ((downloadStep dlEnvOk "Jcpv" 1 ⟨[], [], [], 0, false⟩ (0, badImageRow)).fs = [] ∧
     (downloadStep dlEnvOk "Jcpv" 1 ⟨[], [], [], 0, false⟩ (0, badImageRow)).reqs = [] ∧
     (downloadStep dlEnvOk "Jcpv" 1 ⟨[], [], [], 0, false⟩ (0, badImageRow)).httpError = false ∧
     (downloadStep dlEnvOk "Jcpv" 1 ⟨[], [], [], 0, false⟩ (0, badImageRow)).image_count = 0 + 1) :=
  ⟨C7_unrecognized_image_skipped.1 dlEnvOk "https://h/no.jpg" "p" [] rfl (.inl (by decide)),
   C7_unrecognized_image_skipped.2 dlEnvOk "Jcpv" 1 0 ⟨[], [], [], 0, false⟩ badImageRow rfl
     (by decide) (.inl (by decide))⟩

/-! ## C1: missing image column -/

/-- `load_config` errors always carry exit code 1. -/
theorem load_config_error_code (cfg : ConfigDict) (m : String) (c : Nat)
    (h : load_config cfg = .error (m, c)) : c = 1 := by
  simp only [load_config] at h
  split at h
  all_goals split at h
  all_goals first
    | (simp only [Except.error.injEq, Prod.mk.injEq] at h; exact h.2.symm)
    | simp at h

/-- C1 (amended): when the schema yields no (truthy) image column -- after a
loaded config, a successful token exchange and metadata fetch, and a matching
table -- the run prints `✗ No image column found!` as its last line, writes
no HTML, and exits with code 0 (a plain `return` from `main`), not a non-zero
code. -/
theorem C1_no_image_column_exits_zero :
    ∀ (config_file : String) (cfg cfg' : ConfigDict) (tok uuid : String)
      (tables : List Table) (table : Table) (rowsR : Except (Nat × String) (List Row))
      (linkR : String → Except (Nat × String) String)
      (dataR : String → Except (Nat × String) Bool) (fs0 : List String),
      load_config cfg = .ok cfg' →
      tables.find? (fun t => t.name == TABLE_NAME) = some table →
      (find_image_column table.columns).getD "" = "" →
      (mainRun config_file cfg ⟨.ok (tok, uuid), .ok tables, rowsR, linkR, dataR⟩ fs0).exitCode
          = 0 ∧
      (mainRun config_file cfg ⟨.ok (tok, uuid), .ok tables, rowsR, linkR, dataR⟩ fs0).htmlWritten
          = none ∧
      (mainRun config_file cfg
          ⟨.ok (tok, uuid), .ok tables, rowsR, linkR, dataR⟩ fs0).printed.getLast?
          = some "   ✗ No image column found!" := by
  intro cf cfg cfg' tok uuid tables table rowsR linkR dataR fs0 hld hft hcol
  simp only [mainRun, hld, hft]
  rw [hcol]
  simp [List.getLast?_concat]

/-- An environment whose metadata has the expected table but no columns. -/
def noColEnv : RemoteEnv :=
  ⟨.ok ("tok", "uuid-abcdef"), .ok [⟨"Works & Exhibits", []⟩], .ok [],
   fun _ => .ok "https://dl/x", fun _ => .ok true⟩

/-- C1 (counterexample): with no image column the run terminates with exit
code 0 -- not the non-zero exit the claim requires -- though the
human-readable message is printed and nothing is rendered. -/
theorem C1_counterexample :
    (mainRun "c.json" cfgNoButton noColEnv []).exitCode = 0 ∧
    (mainRun "c.json" cfgNoButton noColEnv []).printed.getLast?
      = some "   ✗ No image column found!" ∧
    (mainRun "c.json" cfgNoButton noColEnv []).htmlWritten = none := by
  decide

/-- Witness for `C1_no_image_column_exits_zero` at a concrete run. -/
theorem C1_no_image_column_exits_zero_witness :
    (mainRun "c.json" cfgNoButton
        ⟨.ok ("tok", "uuid-abcdef"), .ok [⟨"Works & Exhibits", []⟩], .ok [],
         fun _ => .ok "https://dl/x", fun _ => .ok true⟩ []).exitCode = 0 ∧
    (mainRun "c.json" cfgNoButton
        ⟨.ok ("tok", "uuid-abcdef"), .ok [⟨"Works & Exhibits", []⟩], .ok [],
         fun _ => .ok "https://dl/x", fun _ => .ok true⟩ []).htmlWritten = none ∧
    (mainRun "c.json" cfgNoButton
        ⟨.ok ("tok", "uuid-abcdef"), .ok [⟨"Works & Exhibits", []⟩], .ok [],
         fun _ => .ok "https://dl/x", fun _ => .ok true⟩ []).printed.getLast?
      = some "   ✗ No image column found!" :=
  C1_no_image_column_exits_zero "c.json" cfgNoButton cfgNoButton "tok" "uuid-abcdef"
    [⟨"Works & Exhibits", []⟩] ⟨"Works & Exhibits", []⟩ (.ok [])
    (fun _ => .ok "https://dl/x") (fun _ => .ok true) [] rfl rfl rfl

/-! ## C6: remote failures abort the run -/

/-- `download_image` issues only download-link and file-content requests. -/
theorem download_image_reqs_countP (p : Request → Bool)
    (hdl : ∀ s, p (Request.downloadLink s) = false)
    (hfg : ∀ s, p (Request.fileGet s) = false)
    (env : RemoteEnv) (u o : String) (fs : List String) :
    ((download_image env u o fs).reqs).countP p = 0 := by
  simp only [download_image]
  split
  all_goals try split
  all_goals try split
  all_goals try split
  all_goals try split
  all_goals simp [List.countP_cons, hdl, hfg]

/-- One download-loop step issues only download-link and file requests. -/
theorem downloadStep_reqs_countP (p : Request → Bool)
    (hdl : ∀ s, p (Request.downloadLink s) = false)
    (hfg : ∀ s, p (Request.fileGet s) = false)
    (env : RemoteEnv) (col : String) (total : Nat) (st : LoopState) (ir : Nat × Row) :
    ((downloadStep env col total st ir).reqs).countP p = st.reqs.countP p := by
  simp only [downloadStep]
  split
  · rfl
  · split
    · rfl
    · simp [List.countP_append, download_image_reqs_countP p hdl hfg]

/-- The whole download loop issues only download-link and file requests. -/
theorem loop_reqs_countP (p : Request → Bool)
    (hdl : ∀ s, p (Request.downloadLink s) = false)
    (hfg : ∀ s, p (Request.fileGet s) = false)
    (env : RemoteEnv) (col : String) (total : Nat) :
    ∀ (l : List (Nat × Row)) (st : LoopState),
      ((l.foldl (downloadStep env col total) st).reqs).countP p = st.reqs.countP p := by
  intro l
  induction l with
  | nil => intro st; rfl
  | cons a l ih =>
      intro st
      rw [List.foldl_cons, ih, downloadStep_reqs_countP p hdl hfg]

/-- C6: a non-success token, metadata or rows response leaves no catalog HTML
written, with a non-zero exit code (for the rows fetch: whenever that request
was actually issued); and no run issues the token exchange, the metadata
fetch, or the row fetch more than once -- there are no retries. -/
theorem C6_remote_failure_aborts :
    ∀ (config_file : String) (cfg : ConfigDict) (env : RemoteEnv) (fs0 : List String),
      ((∃ e, env.tokenResp = .error e) →
        (mainRun config_file cfg env fs0).htmlWritten = none ∧
        (mainRun config_file cfg env fs0).exitCode ≠ 0) ∧
      ((∃ e, env.metaResp = .error e) →
        (mainRun config_file cfg env fs0).htmlWritten = none ∧
        (mainRun config_file cfg env fs0).exitCode ≠ 0) ∧
      ((∃ e, env.rowsResp = .error e) →
        (mainRun config_file cfg env fs0).htmlWritten = none ∧
        (∀ tn vn, Request.rows tn vn ∈ (mainRun config_file cfg env fs0).reqs →
          (mainRun config_file cfg env fs0).exitCode ≠ 0)) ∧
      ((mainRun config_file cfg env fs0).reqs).countP (fun r => r == Request.token) ≤ 1 ∧
      ((mainRun config_file cfg env fs0).reqs).countP (fun r => r == Request.metadata) ≤ 1 ∧
      ((mainRun config_file cfg env fs0).reqs).countP
        (fun r => match r with | .rows _ _ => true | _ => false) ≤ 1 := by
  intro cf cfg env fs0
  obtain ⟨tr, mr, rr, lr, dr⟩ := env
  cases hld : load_config cfg with
  | error e =>
      obtain ⟨m, c⟩ := e
      have hc1 : c = 1 := load_config_error_code cfg m c hld
      subst hc1
      simp [mainRun, hld]
  | ok cfg' =>
      cases tr with
      | error e => simp [mainRun, hld]
      | ok tu =>
          obtain ⟨tok, uuid⟩ := tu
          cases mr with
          | error e => simp [mainRun, hld]
          | ok tables =>
              cases hft : tables.find? (fun t => t.name == TABLE_NAME) with
              | none => simp [mainRun, hld, hft]
              | some table =>
                  by_cases hcol : ((find_image_column table.columns).getD "" == "") = true
                  · simp [mainRun, hld, hft, hcol]
                  · cases rr with
                    | error e => simp [mainRun, hld, hft, hcol]
                    | ok rows =>
                        refine ⟨by simp, by simp, by simp, ?_, ?_, ?_⟩
                        · simp only [mainRun, hld, hft]
                          rw [if_neg hcol]
                          split <;>
                          · rw [loop_reqs_countP (fun r => r == Request.token)
                                  (fun s => by simp) (fun s => by simp)]
                            simp [List.countP_cons]
                        · simp only [mainRun, hld, hft]
                          rw [if_neg hcol]
                          split <;>
                          · rw [loop_reqs_countP (fun r => r == Request.metadata)
                                  (fun s => by simp) (fun s => by simp)]
                            simp [List.countP_cons]
                        · simp only [mainRun, hld, hft]
                          rw [if_neg hcol]
                          split <;>
                          · rw [loop_reqs_countP
                                  (fun r => match r with | .rows _ _ => true | _ => false)
                                  (fun s => rfl) (fun s => rfl)]
                            simp [List.countP_cons]
  

/-- An environment whose token exchange fails. -/
def failEnv : RemoteEnv :=
  ⟨.error (500, "boom"), .ok [], .ok [], fun _ => .ok "", fun _ => .ok true⟩

/-- Witness for `C6_remote_failure_aborts` at a failing token exchange. -/
theorem C6_remote_failure_aborts_witness :
    (mainRun "c.json" cfgNoButton failEnv []).htmlWritten = none ∧
    (mainRun "c.json" cfgNoButton failEnv []).exitCode ≠ 0 :=
  (C6_remote_failure_aborts "c.json" cfgNoButton failEnv []).1 ⟨(500, "boom"), rfl⟩

/-- Witness for `C3_filename_shape` at the scenario URL and its first hash
character. -/
theorem C3_filename_shape_witness :
    (get_image_filename dawnUrl).data
        = (md5hex (strBytes (unquote (urlparse_path dawnUrl)))).data.take 12
          ++ (pathSuffix (pathName (unquote (urlparse_path dawnUrl)))).data ∧
    (Char.ofNat 98 ∈ (hexDigitsLower : List Char)) :=
  ⟨(C3_filename_shape.1 dawnUrl).1,
   (C3_filename_shape.1 dawnUrl).2.2 (Char.ofNat 98)
     (show Char.ofNat 98
         ∈ (md5hex (strBytes (unquote (urlparse_path dawnUrl)))).data.take 12 by decide)⟩

end Catalog
